import Mathlib

/-!
Verification development for the ANC (antenatal care) reminder engine of the
pregnancy-companion repository.  The Python sources embedded here are
`pregnancy_companion_agent.py` (schedule calculator, pause/resume protocol,
session-resume coordinator, database memory service) and
`anc_reminder_scheduler.py` (reminder aggregation and dispatch).

Modelling conventions:
* calendar dates are represented by their civil day number (an `Int`);
  the current instant `now` is an integer number of seconds, so that
  Python's `(visit_date - current_date).days` (floor of the difference in
  whole days) becomes `Int.fdiv (visitSecs - now) 86400`;
* `datetime.strptime(s, "%Y-%m-%d")` is modelled by an explicit character
  parser that follows CPython's `_strptime` regex for `%Y-%m-%d`
  (exactly four ASCII digits, a dash, a one/two digit month `1..12`, a dash,
  a one/two digit day `1..31`, whole string consumed) followed by the
  `datetime` constructor's calendar validation; `\d` is modelled as the
  ASCII digits;
* Python dictionaries (session stores, session state) are modelled as
  association lists with insert-or-replace update; mutation of a session
  object obtained from the in-memory session service is modelled by
  writing the updated session back to the store;
* fallible external calls (delivery handler, agent runtime, pickling plus
  the database write) are modelled as `Except`-valued parameters: a raised
  exception is the `.error` case;
* rendered message text keeps the literal template parts of the source;
  `strftime` date formatting inside messages is rendered from the day
  number, which no claim inspects.
-/

/-- Value of an ASCII digit character, `none` when the character is not an
ASCII digit (models `\d` in the CPython strptime regex). -/
def digitVal (c : Char) : Option Nat :=
  if c.isDigit then some (c.toNat - 48) else none

/-- Exactly four digits (the `%Y` field of strptime), returning the year
value and the remaining characters. -/
def parse4 : List Char → Option (Nat × List Char)
  | a :: b :: c :: d :: rest => do
    let x ← digitVal a
    let y ← digitVal b
    let z ← digitVal c
    let w ← digitVal d
    pure (1000 * x + 100 * y + 10 * z + w, rest)
  | _ => none

/-- Two-digit month alternatives of the `%m` regex `1[0-2]|0[1-9]`. -/
def parseMonth2 : List Char → Option (Nat × List Char)
  | a :: b :: rest => do
    let x ← digitVal a
    let y ← digitVal b
    if (x = 1 ∧ y ≤ 2) ∨ (x = 0 ∧ 1 ≤ y) then pure (10 * x + y, rest) else none
  | _ => none

/-- One-digit month alternative of the `%m` regex `[1-9]`. -/
def parseMonth1 : List Char → Option (Nat × List Char)
  | a :: rest => do
    let x ← digitVal a
    if 1 ≤ x then pure (x, rest) else none
  | _ => none

/-- Two-digit day alternatives of the `%d` regex `3[01]|[12]\d|0[1-9]`. -/
def parseDay2 : List Char → Option (Nat × List Char)
  | a :: b :: rest => do
    let x ← digitVal a
    let y ← digitVal b
    if (x = 3 ∧ y ≤ 1) ∨ x = 1 ∨ x = 2 ∨ (x = 0 ∧ 1 ≤ y) then
      pure (10 * x + y, rest)
    else none
  | _ => none

/-- One-digit day alternative of the `%d` regex `[1-9]`. -/
def parseDay1 : List Char → Option (Nat × List Char)
  | a :: rest => do
    let x ← digitVal a
    if 1 ≤ x then pure (x, rest) else none
  | _ => none

/-- After the month: the literal dash, then the day alternation, and the
whole input must be consumed (strptime rejects trailing characters).
The two-digit day alternatives are tried before the one-digit one, with
regex backtracking modelled by the `Option` alternation. -/
def afterMonth (y m : Nat) : List Char → Option (Nat × Nat × Nat)
  | '-' :: rest =>
    (match parseDay2 rest with
      | some (d, []) => some (y, m, d)
      | _ => none)
    <|>
    (match parseDay1 rest with
      | some (d, []) => some (y, m, d)
      | _ => none)
  | _ => none

/-- The full `%Y-%m-%d` pattern over a character list: four-digit year,
dash, month alternation (two-digit first, backtracking into the rest of
the pattern), dash, day alternation, end of input. -/
def parseYMDchars (cs : List Char) : Option (Nat × Nat × Nat) :=
  match parse4 cs with
  | some (y, '-' :: rest) =>
    (match parseMonth2 rest with
      | some (m, rest2) => afterMonth y m rest2
      | none => none)
    <|>
    (match parseMonth1 rest with
      | some (m, rest2) => afterMonth y m rest2
      | none => none)
  | _ => none

/-- Gregorian leap-year rule. -/
def isLeapYear (y : Nat) : Bool :=
  (y % 4 == 0 && y % 100 != 0) || (y % 400 == 0)

/-- Number of days in a month (the `datetime` constructor's validation
table). -/
def daysInMonth (y m : Nat) : Nat :=
  if m = 2 then (if isLeapYear y then 29 else 28)
  else if m = 4 ∨ m = 6 ∨ m = 9 ∨ m = 11 then 30
  else 31

/-- A validated calendar date, as produced by `datetime.strptime`. -/
structure CivilDate where
  year : Nat
  month : Nat
  day : Nat
deriving DecidableEq, Repr

/-- Model of `datetime.datetime.strptime(lmp_date, "%Y-%m-%d")`: the regex
match followed by the `datetime` constructor's range checks (year at least
`MINYEAR = 1`; the regex itself caps the year at 9999 and bounds month and
day below). A `none` result corresponds to a raised `ValueError`. -/
def parseDate (s : String) : Option CivilDate :=
  match parseYMDchars s.toList with
  | some (y, m, d) =>
    if 1 ≤ y ∧ d ≤ daysInMonth y m then some ⟨y, m, d⟩ else none
  | none => none

/-- Civil day number of a calendar date (days since 1970-01-01, the
standard days-from-civil computation). Only differences of day numbers
matter to the embedded code. -/
def daysFromCivil (dt : CivilDate) : Int :=
  let y : Int := if dt.month ≤ 2 then (dt.year : Int) - 1 else (dt.year : Int)
  let era : Int := y.fdiv 400
  let yoe : Int := y - era * 400
  let mp : Int := ((dt.month : Int) + 9) % 12
  let doy : Int := (153 * mp + 2).fdiv 5 + (dt.day : Int) - 1
  let doe : Int := yoe * 365 + yoe.fdiv 4 - yoe.fdiv 100 + doy
  era * 146097 + doe - 719468

/-- One row of the returned `anc_schedule` list. -/
structure VisitEntry where
  visit_number : Nat
  week : Nat
  scheduled_date : Int
  status : String
  days_until : Int
deriving DecidableEq, Repr

/-- One row of the returned `overdue_visits` list. -/
structure OverdueEntry where
  visit_number : Nat
  scheduled_date : Int
  week : Nat
  days_overdue : Nat
deriving DecidableEq, Repr

/-- The `next_visit` dictionary. -/
structure NextVisitEntry where
  visit_number : Nat
  scheduled_date : Int
  week : Nat
  days_until : Int
deriving DecidableEq, Repr

/-- The success payload of `calculate_anc_schedule`. -/
structure ScheduleSuccess where
  anc_schedule : List VisitEntry
  next_visit : Option NextVisitEntry
  overdue_visits : List OverdueEntry
  completed_visits : Nat
  total_visits : Nat
  current_gestational_age : Int
  lmp_date : String
deriving DecidableEq, Repr

/-- Result dictionary of `calculate_anc_schedule`: either the success
payload or an error record with a message. -/
inductive CalcResult where
  | success (r : ScheduleSuccess)
  | error (error_message : String)
deriving DecidableEq, Repr

/-- The fixed WHO visit week offsets from the source. -/
def ancWeeks : List Nat := [10, 20, 26, 30, 34, 36, 38, 40]

/-- Seconds per day. -/
def secPerDay : Int := 86400

/-- Loop accumulator of the `for visit_num, week in enumerate(anc_weeks, 1)`
loop: the growing schedule, the first matched upcoming visit and the
overdue list. -/
structure LoopAcc where
  schedule : List VisitEntry
  next_visit : Option NextVisitEntry
  overdue_visits : List OverdueEntry
deriving DecidableEq, Repr

/-- Body of the schedule loop, translated clause by clause from the
`if/elif` chain of the source. `lmpDay` is the civil day number of the
parsed LMP, `now` the current instant in seconds, `visit_num` the
1-based counter of `enumerate`. -/
def visitLoop (lmpDay now : Int) : Nat → List Nat → LoopAcc → LoopAcc
  | _, [], acc => acc
  | visit_num, week :: rest, acc =>
    let visit_date : Int := lmpDay + 7 * (week : Int)
    let days_until : Int := (visit_date * secPerDay - now).fdiv secPerDay
    if days_until < -7 then
      visitLoop lmpDay now (visit_num + 1) rest
        { schedule := acc.schedule ++
            [⟨visit_num, week, visit_date, "overdue", days_until⟩],
          next_visit := acc.next_visit,
          overdue_visits := acc.overdue_visits ++
            [⟨visit_num, visit_date, week, days_until.natAbs⟩] }
    else if days_until < 0 then
      visitLoop lmpDay now (visit_num + 1) rest
        { schedule := acc.schedule ++
            [⟨visit_num, week, visit_date, "due_now", days_until⟩],
          next_visit := acc.next_visit,
          overdue_visits := acc.overdue_visits }
    else if days_until ≤ 14 then
      visitLoop lmpDay now (visit_num + 1) rest
        { schedule := acc.schedule ++
            [⟨visit_num, week, visit_date, "upcoming", days_until⟩],
          next_visit :=
            match acc.next_visit with
            | none => some ⟨visit_num, visit_date, week, days_until⟩
            | some v => some v,
          overdue_visits := acc.overdue_visits }
    else
      visitLoop lmpDay now (visit_num + 1) rest
        { schedule := acc.schedule ++
            [⟨visit_num, week, visit_date, "scheduled", days_until⟩],
          next_visit := acc.next_visit,
          overdue_visits := acc.overdue_visits }

/-- The error message of the `except ValueError` branch. -/
def invalidDateMsg : String :=
  "Invalid date format. Please use YYYY-MM-DD format (e.g., 2025-03-01)"

/-- Model of `calculate_anc_schedule(lmp_date)` at current instant `now`
(seconds): parse the LMP, run the visit loop over the fixed week table,
and assemble the result dictionary; a parse failure is the caught
`ValueError` returning the error record. -/
def calculate_anc_schedule (lmp_date : String) (now : Int) : CalcResult :=
  match parseDate lmp_date with
  | none => .error invalidDateMsg
  | some dt =>
    let lmpDay := daysFromCivil dt
    let res := visitLoop lmpDay now 1 ancWeeks ⟨[], none, []⟩
    let gestationalWeeks : Int := ((now - lmpDay * secPerDay).fdiv secPerDay).tdiv 7
    .success
      { anc_schedule := res.schedule,
        next_visit := res.next_visit,
        overdue_visits := res.overdue_visits,
        completed_visits := 0,
        total_visits := res.schedule.length,
        current_gestational_age := gestationalWeeks,
        lmp_date := lmp_date }

/-- Projection: the visit list of a result (empty for an error result,
which carries no visit list). -/
def CalcResult.schedule : CalcResult → List VisitEntry
  | .success r => r.anc_schedule
  | .error _ => []

/-- Projection: the `next_visit` field of a result. -/
def CalcResult.nextVisit : CalcResult → Option NextVisitEntry
  | .success r => r.next_visit
  | .error _ => none

/-- Projection: the `overdue_visits` field of a result. -/
def CalcResult.overdue : CalcResult → List OverdueEntry
  | .success r => r.overdue_visits
  | .error _ => []

/-- Whether the result dictionary has `status == "success"`. -/
def CalcResult.isSuccess : CalcResult → Bool
  | .success _ => true
  | .error _ => false

/-- Status classifier written from the specification sentence (for the
refinement comparison of C1): `days_until < -7` is overdue,
`-7 ≤ days_until < 0` is due_now, `0 ≤ days_until ≤ 14` is upcoming,
otherwise scheduled, evaluated in this order. -/
def specVisitStatus (d : Int) : String :=
  if d < -7 then "overdue"
  else if -7 ≤ d ∧ d < 0 then "due_now"
  else if 0 ≤ d ∧ d ≤ 14 then "upcoming"
  else "scheduled"

/-- Invariant of the schedule loop: every entry of the accumulated
schedule carries the status the specification's rule table assigns to its
own `days_until`. -/
theorem visitLoop_status (l n : Int) :
    ∀ (ws : List Nat) (vn : Nat) (acc : LoopAcc),
    (∀ v ∈ acc.schedule, v.status = specVisitStatus v.days_until) →
    ∀ v ∈ (visitLoop l n vn ws acc).schedule, v.status = specVisitStatus v.days_until := by
  intro ws
  induction ws with
  | nil =>
    intro vn acc hacc v hv
    exact hacc v (by simpa [visitLoop] using hv)
  | cons week rest ih =>
    intro vn acc hacc v hv
    rw [visitLoop] at hv
    set du := ((l + 7 * (week : Int)) * secPerDay - n).fdiv secPerDay with hdu
    split at hv
    case isTrue h1 =>
      refine ih (vn + 1) _ ?_ v hv
      intro w hw
      rcases List.mem_append.mp hw with hw | hw
      · exact hacc w hw
      · have hweq : w = ⟨vn, week, l + 7 * (week : Int), "overdue", du⟩ :=
          List.mem_singleton.mp hw
        subst hweq
        simp only [specVisitStatus]
        rw [if_pos h1]
    case isFalse h1 =>
      split at hv
      case isTrue h2 =>
        refine ih (vn + 1) _ ?_ v hv
        intro w hw
        rcases List.mem_append.mp hw with hw | hw
        · exact hacc w hw
        · have hweq : w = ⟨vn, week, l + 7 * (week : Int), "due_now", du⟩ :=
            List.mem_singleton.mp hw
          subst hweq
          simp only [specVisitStatus]
          rw [if_neg h1, if_pos (by omega : -7 ≤ du ∧ du < 0)]
      case isFalse h2 =>
        split at hv
        case isTrue h3 =>
          refine ih (vn + 1) _ ?_ v hv
          intro w hw
          rcases List.mem_append.mp hw with hw | hw
          · exact hacc w hw
          · have hweq : w = ⟨vn, week, l + 7 * (week : Int), "upcoming", du⟩ :=
              List.mem_singleton.mp hw
            subst hweq
            simp only [specVisitStatus]
            rw [if_neg h1, if_neg (by omega : ¬(-7 ≤ du ∧ du < 0)),
              if_pos (by omega : 0 ≤ du ∧ du ≤ 14)]
        case isFalse h3 =>
          refine ih (vn + 1) _ ?_ v hv
          intro w hw
          rcases List.mem_append.mp hw with hw | hw
          · exact hacc w hw
          · have hweq : w = ⟨vn, week, l + 7 * (week : Int), "scheduled", du⟩ :=
              List.mem_singleton.mp hw
            subst hweq
            simp only [specVisitStatus]
            rw [if_neg h1, if_neg (by omega : ¬(-7 ≤ du ∧ du < 0)),
              if_neg (by omega : ¬(0 ≤ du ∧ du ≤ 14))]

/-- C1: for every LMP string that parses as a calendar date and every
current instant, each visit's status is determined solely by its signed
day delta `days_until`, with the exact boundaries of the specification:
`days_until < -7` is overdue, `-7 ≤ days_until < 0` is due_now (so `-7`
itself is due_now, not overdue), `0 ≤ days_until ≤ 14` is upcoming (so
`14` itself is upcoming, not scheduled), otherwise scheduled. -/
theorem anc_status_matches_spec_table (s : String) (now : Int) (dt : CivilDate)
    (hp : parseDate s = some dt) :
    ∀ v ∈ (calculate_anc_schedule s now).schedule,
      v.status = specVisitStatus v.days_until := by
  intro v hv
  simp only [calculate_anc_schedule, hp, CalcResult.schedule] at hv
  exact visitLoop_status (daysFromCivil dt) now ancWeeks 1 ⟨[], none, []⟩
    (by intro w hw; simp at hw) v hv

/-- Witness for C1 at the concrete input LMP `"2025-03-01"` and the
instant `1752883200` seconds (day 20288 at midnight). -/
theorem anc_status_matches_spec_table_witness :
    ((calculate_anc_schedule "2025-03-01" 1752883200).schedule.all
      (fun v => v.status == specVisitStatus v.days_until)) = true := by
  rw [List.all_eq_true]
  intro v hv
  exact beq_iff_eq.mpr
    (anc_status_matches_spec_table "2025-03-01" 1752883200 ⟨2025, 3, 1⟩ (by decide) v hv)

/-- The `(visit_number, week, scheduled_date)` triples the loop appends
for a given week list, starting at counter `vn`. -/
def shapeList (l : Int) : Nat → List Nat → List (Nat × Nat × Int)
  | _, [] => []
  | vn, w :: rest => (vn, w, l + 7 * (w : Int)) :: shapeList l (vn + 1) rest

/-- The schedule built by the loop projects, entry by entry, to the
enumerated week table with `scheduled_date = LMP + 7 * week`, appended
after whatever the accumulator already held. -/
theorem visitLoop_shape (l n : Int) :
    ∀ (ws : List Nat) (vn : Nat) (acc : LoopAcc),
    (visitLoop l n vn ws acc).schedule.map
        (fun v => (v.visit_number, v.week, v.scheduled_date)) =
      acc.schedule.map (fun v => (v.visit_number, v.week, v.scheduled_date)) ++
        shapeList l vn ws := by
  intro ws
  induction ws with
  | nil =>
    intro vn acc
    simp [visitLoop, shapeList]
  | cons week rest ih =>
    intro vn acc
    rw [visitLoop]
    split
    case isTrue h1 =>
      rw [ih, shapeList]
      simp
    case isFalse h1 =>
      split
      case isTrue h2 =>
        rw [ih, shapeList]
        simp
      case isFalse h2 =>
        split
        case isTrue h3 =>
          rw [ih, shapeList]
          simp
        case isFalse h3 =>
          rw [ih, shapeList]
          simp

/-- C2: for every LMP string that parses as a calendar date, the
calculator returns a success result with exactly 8 visits, numbered 1
through 8, with week offsets `[10,20,26,30,34,36,38,40]` in that
ascending order, and each visit's `scheduled_date` equal to the LMP day
plus its week offset (7 days per week). -/
theorem anc_schedule_eight_visits (s : String) (now : Int) (dt : CivilDate)
    (hp : parseDate s = some dt) :
    (calculate_anc_schedule s now).isSuccess = true ∧
    (calculate_anc_schedule s now).schedule.length = 8 ∧
    (calculate_anc_schedule s now).schedule.map (fun v => v.visit_number) =
      [1, 2, 3, 4, 5, 6, 7, 8] ∧
    (calculate_anc_schedule s now).schedule.map (fun v => v.week) =
      [10, 20, 26, 30, 34, 36, 38, 40] ∧
    ∀ v ∈ (calculate_anc_schedule s now).schedule,
      v.scheduled_date = daysFromCivil dt + 7 * (v.week : Int) := by
  have hshape := visitLoop_shape (daysFromCivil dt) now ancWeeks 1 ⟨[], none, []⟩
  have hsch : (calculate_anc_schedule s now).schedule =
      (visitLoop (daysFromCivil dt) now 1 ancWeeks ⟨[], none, []⟩).schedule := by
    simp [calculate_anc_schedule, hp, CalcResult.schedule]
  have htriple : (calculate_anc_schedule s now).schedule.map
      (fun v => (v.visit_number, v.week, v.scheduled_date)) =
      shapeList (daysFromCivil dt) 1 ancWeeks := by
    rw [hsch, hshape]
    simp
  refine ⟨by simp [calculate_anc_schedule, hp, CalcResult.isSuccess], ?_, ?_, ?_, ?_⟩
  · have := congrArg List.length htriple
    simpa [ancWeeks, shapeList] using this
  · have := congrArg (List.map (fun p : Nat × Nat × Int => p.1)) htriple
    simpa [ancWeeks, shapeList, Function.comp] using this
  · have := congrArg (List.map (fun p : Nat × Nat × Int => p.2.1)) htriple
    simpa [ancWeeks, shapeList, Function.comp] using this
  · intro v hv
    have hmem : (v.visit_number, v.week, v.scheduled_date) ∈
        shapeList (daysFromCivil dt) 1 ancWeeks := by
      rw [← htriple]
      exact List.mem_map_of_mem _ hv
    simp only [ancWeeks, shapeList, List.mem_cons, List.not_mem_nil, or_false,
      Prod.mk.injEq] at hmem
    rcases hmem with ⟨_, h2, h3⟩ | ⟨_, h2, h3⟩ | ⟨_, h2, h3⟩ | ⟨_, h2, h3⟩ |
      ⟨_, h2, h3⟩ | ⟨_, h2, h3⟩ | ⟨_, h2, h3⟩ | ⟨_, h2, h3⟩ <;>
      rw [h3, h2]

/-- Witness for C2 at the concrete input LMP `"2025-03-01"` and the
instant `1752883200` seconds. -/
theorem anc_schedule_eight_visits_witness :
    (calculate_anc_schedule "2025-03-01" 1752883200).isSuccess = true ∧
    (calculate_anc_schedule "2025-03-01" 1752883200).schedule.length = 8 ∧
    (calculate_anc_schedule "2025-03-01" 1752883200).schedule.map
      (fun v => v.visit_number) = [1, 2, 3, 4, 5, 6, 7, 8] := by
  obtain ⟨h1, h2, h3, -⟩ :=
    anc_schedule_eight_visits "2025-03-01" 1752883200 ⟨2025, 3, 1⟩ (by decide)
  exact ⟨h1, h2, h3⟩

/-- The `next_visit` dictionary the loop builds from a schedule entry
(same four fields, copied from the same loop locals). -/
def toNV (v : VisitEntry) : NextVisitEntry :=
  ⟨v.visit_number, v.scheduled_date, v.week, v.days_until⟩

/-- Invariant of the schedule loop: `next_visit` is always the first
entry of the accumulated schedule whose status is `"upcoming"`. -/
theorem visitLoop_next_visit (l n : Int) :
    ∀ (ws : List Nat) (vn : Nat) (acc : LoopAcc),
    acc.next_visit = (acc.schedule.find? (fun v => v.status == "upcoming")).map toNV →
    (visitLoop l n vn ws acc).next_visit =
      ((visitLoop l n vn ws acc).schedule.find?
        (fun v => v.status == "upcoming")).map toNV := by
  intro ws
  induction ws with
  | nil =>
    intro vn acc hacc
    simpa [visitLoop] using hacc
  | cons week rest ih =>
    intro vn acc hacc
    rw [visitLoop]
    split
    case isTrue h1 =>
      refine ih (vn + 1) _ ?_
      simp only [List.find?_append, hacc, List.find?]
      simp [Option.or_none]
    case isFalse h1 =>
      split
      case isTrue h2 =>
        refine ih (vn + 1) _ ?_
        simp only [List.find?_append, hacc, List.find?]
        simp [Option.or_none]
      case isFalse h2 =>
        split
        case isTrue h3 =>
          refine ih (vn + 1) _ ?_
          cases hnv : acc.next_visit with
          | none =>
            have hfind : acc.schedule.find? (fun v => v.status == "upcoming") = none := by
              rw [hnv] at hacc
              exact (Option.map_eq_none.mp hacc.symm)
            simp only [List.find?_append, hfind, List.find?]
            simp [Option.or, toNV]
          | some v0 =>
            have hfind : ∃ w0, acc.schedule.find? (fun v => v.status == "upcoming") =
                some w0 ∧ toNV w0 = v0 := by
              rw [hnv] at hacc
              rcases Option.map_eq_some.mp hacc.symm with ⟨w0, hw0, hw0v⟩
              exact ⟨w0, hw0, hw0v⟩
            rcases hfind with ⟨w0, hw0, hw0v⟩
            simp only [List.find?_append, hw0]
            simp [Option.or, hw0v]
        case isFalse h3 =>
          refine ih (vn + 1) _ ?_
          simp only [List.find?_append, hacc, List.find?]
          simp [Option.or_none]

/-- Counterexample for C3 at LMP `"2025-01-01"` and instant `1741996800`
seconds (day 20162 at midnight): visit 1 is 3 days past (status
`"due_now"`) and no visit is upcoming, yet `next_visit` is `none` — the
code never selects a due_now visit as `next_visit`. -/
theorem next_visit_skips_due_now_counterexample :
    (calculate_anc_schedule "2025-01-01" 1741996800).nextVisit = none ∧
    ((calculate_anc_schedule "2025-01-01" 1741996800).schedule.any
      (fun v => v.status == "due_now")) = true := by
  constructor
  · decide
  · decide

/-- C3 (amended): for every successful calculation, `next_visit` is
either `none` or the earliest visit (in week order) whose status is
`"upcoming"`; visits with status `"due_now"` are never selected. -/
theorem next_visit_is_first_upcoming (s : String) (now : Int) (dt : CivilDate)
    (hp : parseDate s = some dt) :
    (calculate_anc_schedule s now).nextVisit =
      (((calculate_anc_schedule s now).schedule.find?
        (fun v => v.status == "upcoming")).map toNV) := by
  simp only [calculate_anc_schedule, hp, CalcResult.nextVisit, CalcResult.schedule]
  exact visitLoop_next_visit (daysFromCivil dt) now ancWeeks 1 ⟨[], none, []⟩ (by simp)

/-- Witness for the amended C3 at LMP `"2025-03-01"` and instant
`1752883200` seconds, where visit 2 is the first upcoming visit. -/
theorem next_visit_is_first_upcoming_witness :
    (calculate_anc_schedule "2025-03-01" 1752883200).nextVisit =
      some ⟨2, 20288, 20, 0⟩ := by
  rw [next_visit_is_first_upcoming "2025-03-01" 1752883200 ⟨2025, 3, 1⟩ (by decide)]
  decide

/-- A pregnancy record as consumed by the scheduler (the dictionary keys
the check job reads). -/
structure PregnancyRecord where
  phone : String
  name : String
  lmp_date : String
  location : String
deriving DecidableEq, Repr

/-- The visit dictionary a reminder points at: the `next_visit` entry for
an upcoming reminder, an `overdue_visits` entry for an overdue one. -/
inductive VisitRef where
  | upcoming (v : NextVisitEntry)
  | overdue (o : OverdueEntry)
deriving DecidableEq, Repr

/-- A reminder constructed during one aggregation pass. -/
structure Reminder where
  type : String
  record : PregnancyRecord
  visit : VisitRef
  message : String
deriving DecidableEq, Repr

/-- The reminders one record contributes to the batch: one upcoming
reminder when `next_visit` is present with `0 <= days_until <= 7`, then
one overdue reminder per `overdue_visits` entry; a record whose schedule
calculation failed contributes nothing (the `continue`). -/
def recordReminders (now : Int) (record : PregnancyRecord) : List Reminder :=
  match calculate_anc_schedule record.lmp_date now with
  | .error _ => []
  | .success sr =>
    (match sr.next_visit with
      | some nv =>
        if 0 ≤ nv.days_until ∧ nv.days_until ≤ 7 then
          [⟨"upcoming", record, .upcoming nv,
            "Reminder: You have an ANC visit coming up in " ++
              toString nv.days_until ++ " days (Visit #" ++
              toString nv.visit_number ++ " on " ++
              toString nv.scheduled_date ++ ")"⟩]
        else []
      | none => []) ++
    sr.overdue_visits.map (fun o =>
      ⟨"overdue", record, .overdue o,
        "Important: Your ANC Visit #" ++ toString o.visit_number ++ " is " ++
          toString o.days_overdue ++
          " days overdue. Please schedule an appointment."⟩)

/-- The `reminders_to_send` list accumulated over the record loop. -/
def buildReminders (now : Int) (records : List PregnancyRecord) : List Reminder :=
  records.foldl (fun acc r => acc ++ recordReminders now r) []

/-- Whether a delivery attempt completed without raising. -/
def exceptOk : Except String Unit → Bool
  | .ok _ => true
  | .error _ => false

/-- The dispatch loop: every reminder in the batch is handed to the
delivery handler in order; a raised exception (`.error`) is caught and
only the successful deliveries are counted into `self.reminders_sent`. -/
def dispatchCount (handler : Reminder → Except String Unit) : List Reminder → Nat
  | [] => 0
  | r :: rest =>
    (match handler r with
      | .ok _ => 1
      | .error _ => 0) + dispatchCount handler rest

/-- Mutable counters of `ANCReminderScheduler` relevant to the check job
and the stats query. -/
structure SchedState where
  is_running : Bool
  check_count : Nat
  reminders_sent : Nat
deriving DecidableEq, Repr

/-- Result dictionary of one run of `check_anc_reminders`. -/
inductive CheckResult where
  | success (records_checked reminders_sent check_number : Nat)
  | error (err : String) (check_number : Nat)
deriving DecidableEq, Repr

/-- Model of `ANCReminderScheduler.check_anc_reminders`: the check counter
is incremented before the guarded body; a failing record fetch is the
caught batch-level exception returning the run-level error result; on a
successful fetch the reminder batch is built, dispatched sequentially
(successes accumulated into `reminders_sent`), and the summary reports
the number of records and of constructed reminders. -/
def check_anc_reminders (st : SchedState) (now : Int)
    (fetch : Except String (List PregnancyRecord))
    (handler : Reminder → Except String Unit) : SchedState × CheckResult :=
  let st1 : SchedState := { st with check_count := st.check_count + 1 }
  match fetch with
  | .error e => (st1, .error e st1.check_count)
  | .ok records =>
    let reminders := buildReminders now records
    let sent := dispatchCount handler reminders
    ({ st1 with reminders_sent := st1.reminders_sent + sent },
      .success records.length reminders.length st1.check_count)

/-- Model of `trigger_immediate_check`: the same job invoked out-of-band. -/
def trigger_immediate_check (st : SchedState) (now : Int)
    (fetch : Except String (List PregnancyRecord))
    (handler : Reminder → Except String Unit) : SchedState × CheckResult :=
  check_anc_reminders st now fetch handler

/-- The counter fields of the `get_stats` dictionary (`test_mode`,
`schedule_time` and `next_run` are configuration echoes of the wrapped
APScheduler instance, not state of the check job). -/
structure SchedulerStats where
  is_running : Bool
  total_checks : Nat
  total_reminders_sent : Nat
deriving DecidableEq, Repr

/-- Model of `get_stats`. -/
def get_stats (st : SchedState) : SchedulerStats :=
  ⟨st.is_running, st.check_count, st.reminders_sent⟩

/-- Spec-side predicate (for the comparison of C4): a record's
`next_visit` exists and is within 0..7 days. -/
def specUpcomingReminderDue (now : Int) (rec : PregnancyRecord) : Bool :=
  match (calculate_anc_schedule rec.lmp_date now).nextVisit with
  | some nv => decide (0 ≤ nv.days_until ∧ nv.days_until ≤ 7)
  | none => false

/-- Spec-side count (for the comparison of C4): the number of overdue
visits of a record. -/
def specOverdueCount (now : Int) (rec : PregnancyRecord) : Nat :=
  ((calculate_anc_schedule rec.lmp_date now).overdue).length

/-- One record contributes one reminder when its `next_visit` is within
0..7 days, plus one reminder per overdue visit. -/
theorem recordReminders_length (now : Int) (rec : PregnancyRecord) :
    (recordReminders now rec).length =
      (if specUpcomingReminderDue now rec then 1 else 0) + specOverdueCount now rec := by
  unfold recordReminders specUpcomingReminderDue specOverdueCount
  cases h : calculate_anc_schedule rec.lmp_date now with
  | error msg => simp [CalcResult.nextVisit, CalcResult.overdue]
  | success sr =>
    clear h
    obtain ⟨sch, nvo, ov, cv, tv, ga, ld⟩ := sr
    simp only [CalcResult.nextVisit, CalcResult.overdue]
    cases nvo with
    | none => simp
    | some nv =>
      by_cases hc : 0 ≤ nv.days_until ∧ nv.days_until ≤ 7
      · simp [hc, Nat.add_comm]
      · simp [hc]

/-- Length of the accumulated reminder batch over the record loop. -/
theorem buildReminders_length_aux (now : Int) :
    ∀ (records : List PregnancyRecord) (acc : List Reminder),
    (records.foldl (fun a r => a ++ recordReminders now r) acc).length =
      acc.length + records.countP (specUpcomingReminderDue now) +
        (records.map (specOverdueCount now)).sum := by
  intro records
  induction records with
  | nil => intro acc; simp
  | cons rec rest ih =>
    intro acc
    simp only [List.foldl_cons, List.countP_cons, List.map_cons, List.sum_cons]
    rw [ih, List.length_append, recordReminders_length]
    by_cases hc : specUpcomingReminderDue now rec
    · simp [hc]
      omega
    · simp [hc]
      omega

/-- C4: for a fetched record list whose schedules all compute
successfully and whose deliveries all succeed, one run of
`trigger_immediate_check` (one `check_anc_reminders` run) reports
`records_checked` equal to the number of fetched records and
`reminders_sent` equal to the number of records whose `next_visit` is
within 0..7 days plus the total number of overdue visits over all
records. -/
theorem trigger_immediate_check_counts (st : SchedState) (now : Int)
    (records : List PregnancyRecord) (handler : Reminder → Except String Unit)
    (_hcalc : ∀ rec ∈ records, (calculate_anc_schedule rec.lmp_date now).isSuccess = true)
    (_hdeliver : ∀ r, handler r = .ok ()) :
    (trigger_immediate_check st now (.ok records) handler).2 =
      .success records.length
        (records.countP (specUpcomingReminderDue now) +
          (records.map (specOverdueCount now)).sum)
        (st.check_count + 1) := by
  simp only [trigger_immediate_check, check_anc_reminders, buildReminders]
  rw [buildReminders_length_aux]
  simp

/-- Witness for C4: one record with LMP `"2025-03-01"` at instant
`1752883200` (visit 1 overdue, visit 2 upcoming in 0 days) yields one
upcoming and one overdue reminder. -/
theorem trigger_immediate_check_counts_witness :
    (trigger_immediate_check ⟨false, 0, 0⟩ 1752883200
        (.ok [⟨"+1234567890", "Test Patient 1", "2025-03-01", "Lagos, Nigeria"⟩])
        (fun _ => .ok ())).2 =
      .success 1 2 1 := by
  rw [trigger_immediate_check_counts ⟨false, 0, 0⟩ 1752883200
    [⟨"+1234567890", "Test Patient 1", "2025-03-01", "Lagos, Nigeria"⟩]
    (fun _ => .ok ()) (by decide) (fun r => rfl)]
  decide

/-- Dispatch over a concatenation counts each part. -/
theorem dispatchCount_append (handler : Reminder → Except String Unit)
    (l1 l2 : List Reminder) :
    dispatchCount handler (l1 ++ l2) =
      dispatchCount handler l1 + dispatchCount handler l2 := by
  induction l1 with
  | nil => simp [dispatchCount]
  | cons r rest ih =>
    simp only [List.cons_append, dispatchCount, List.append_eq, ih]
    omega

/-- Successful deliveries are exactly the handler's `.ok` results. -/
theorem dispatchCount_eq_countP (handler : Reminder → Except String Unit) :
    ∀ l : List Reminder,
    dispatchCount handler l = l.countP (fun r => exceptOk (handler r)) := by
  intro l
  induction l with
  | nil => simp [dispatchCount]
  | cons r rest ih =>
    simp only [dispatchCount, List.countP_cons, ih]
    cases h : handler r
    · simp [exceptOk, h]
    · simp [exceptOk, h]
      omega

/-- C6: the check job never propagates an exception. A run with a
successful fetch always returns a success summary regardless of what the
delivery handler does; a delivery failure in the middle of the batch is
caught and every remaining reminder is still dispatched (the successes
counted after the failing item are exactly those of the tail); a failing
record fetch short-circuits the run into a run-level error result
carrying the check number. -/
theorem check_anc_reminders_error_isolation (st : SchedState) (now : Int)
    (records : List PregnancyRecord) (handler : Reminder → Except String Unit)
    (e em : String) (pre post : List Reminder) (f : Reminder) :
    (∃ a b c, (check_anc_reminders st now (.ok records) handler).2 = .success a b c) ∧
    (handler f = .error em →
      dispatchCount handler (pre ++ f :: post) =
        dispatchCount handler pre + dispatchCount handler post) ∧
    check_anc_reminders st now (.error e) handler =
      ({ st with check_count := st.check_count + 1 }, .error e (st.check_count + 1)) := by
  refine ⟨?_, ?_, ?_⟩
  · exact ⟨records.length, (buildReminders now records).length, st.check_count + 1,
      by simp [check_anc_reminders]⟩
  · intro hf
    rw [dispatchCount_append]
    simp [dispatchCount, hf]
  · simp [check_anc_reminders]

/-- Witness for C6 at a concrete failing handler, failing fetch and a
one-element batch around the failing reminder. -/
theorem check_anc_reminders_error_isolation_witness :
    (∃ a b c, (check_anc_reminders ⟨false, 0, 0⟩ 0 (.ok []) (fun _ => .error "boom")).2 =
      .success a b c) ∧
    dispatchCount (fun _ => .error "boom")
        ([] ++ ⟨"upcoming", ⟨"p", "n", "2025-03-01", "loc"⟩,
          .upcoming ⟨1, 0, 10, 3⟩, "m"⟩ :: []) =
      dispatchCount (fun _ => .error "boom") [] +
        dispatchCount (fun _ => .error "boom") [] := by
  obtain ⟨h1, h2, h3⟩ := check_anc_reminders_error_isolation ⟨false, 0, 0⟩ 0 []
    (fun _ => .error "boom") "fetch failed" "boom" [] []
    ⟨"upcoming", ⟨"p", "n", "2025-03-01", "loc"⟩, .upcoming ⟨1, 0, 10, 3⟩, "m"⟩
  exact ⟨h1, h2 rfl⟩

/-- C10: the summary's `reminders_sent` is the number of constructed
reminders, counting those whose delivery raised, while the
`total_reminders_sent` stats counter only advances by the number of
deliveries that completed; with at least one failed delivery in the
batch the summary strictly exceeds the counter increase. -/
theorem summary_counts_constructed_not_delivered (st : SchedState) (now : Int)
    (records : List PregnancyRecord) (handler : Reminder → Except String Unit) :
    (check_anc_reminders st now (.ok records) handler).2 =
      .success records.length (buildReminders now records).length (st.check_count + 1) ∧
    (get_stats (check_anc_reminders st now (.ok records) handler).1).total_reminders_sent =
      (get_stats st).total_reminders_sent +
        (buildReminders now records).countP (fun r => exceptOk (handler r)) ∧
    ((buildReminders now records).any (fun r => !exceptOk (handler r)) = true →
      (get_stats (check_anc_reminders st now (.ok records) handler).1).total_reminders_sent -
          (get_stats st).total_reminders_sent <
        (buildReminders now records).length) := by
  refine ⟨by simp [check_anc_reminders], ?_, ?_⟩
  · simp [check_anc_reminders, get_stats, dispatchCount_eq_countP]
  · intro hfail
    simp only [check_anc_reminders, get_stats, dispatchCount_eq_countP]
    rcases List.any_eq_true.mp hfail with ⟨r0, hr0, hr0f⟩
    have hle : (buildReminders now records).countP (fun r => exceptOk (handler r)) ≤
        (buildReminders now records).length := List.countP_le_length _
    have hne : (buildReminders now records).countP (fun r => exceptOk (handler r)) ≠
        (buildReminders now records).length := by
      intro heq
      have := List.countP_eq_length.mp heq r0 hr0
      simp [this] at hr0f
    omega

/-- Witness for C10: a batch of two reminders, both deliveries failing;
the summary reports 2 while the stats counter does not move. -/
theorem summary_counts_constructed_not_delivered_witness :
    (check_anc_reminders ⟨false, 0, 0⟩ 1752883200
        (.ok [⟨"+1234567890", "Test Patient 1", "2025-03-01", "Lagos, Nigeria"⟩])
        (fun _ => .error "boom")).2 =
      .success 1 2 1 ∧
    (get_stats (check_anc_reminders ⟨false, 0, 0⟩ 1752883200
        (.ok [⟨"+1234567890", "Test Patient 1", "2025-03-01", "Lagos, Nigeria"⟩])
        (fun _ => .error "boom")).1).total_reminders_sent -
        (get_stats ⟨false, 0, 0⟩).total_reminders_sent <
      2 := by
  obtain ⟨h1, h2, h3⟩ := summary_counts_constructed_not_delivered ⟨false, 0, 0⟩ 1752883200
    [⟨"+1234567890", "Test Patient 1", "2025-03-01", "Lagos, Nigeria"⟩]
    (fun _ => .error "boom")
  refine ⟨by rw [h1]; decide, ?_⟩
  have := h3 (by decide)
  have hlen : (buildReminders 1752883200
      [⟨"+1234567890", "Test Patient 1", "2025-03-01", "Lagos, Nigeria"⟩]).length = 2 := by
    decide
  omega

/-- Lookup in an association-list model of a Python dictionary. -/
def mget {κ α : Type} [DecidableEq κ] (m : List (κ × α)) (k : κ) : Option α :=
  (m.find? (fun kv => decide (kv.1 = k))).map (fun kv => kv.2)

/-- Insert-or-replace update of the dictionary model. -/
def mset {κ α : Type} [DecidableEq κ] (m : List (κ × α)) (k : κ) (v : α) :
    List (κ × α) :=
  (k, v) :: m.filter (fun kv => !decide (kv.1 = k))

theorem mget_mset_same {κ α : Type} [DecidableEq κ] (m : List (κ × α)) (k : κ) (v : α) :
    mget (mset m k v) k = some v := by
  simp [mget, mset, List.find?]

theorem find?_filter_other {κ α : Type} [DecidableEq κ] (k k2 : κ) (h : k2 ≠ k) :
    ∀ m : List (κ × α),
    (m.filter (fun kv => !decide (kv.1 = k2))).find? (fun kv => decide (kv.1 = k)) =
      m.find? (fun kv => decide (kv.1 = k)) := by
  intro m
  induction m with
  | nil => rfl
  | cons a rest ih =>
    by_cases ha : a.1 = k2
    · have hak : (decide (a.1 = k)) = false := decide_eq_false (by rw [ha]; exact h)
      have hfa : (!decide (a.1 = k2)) = false := by simp [ha]
      simp [List.filter_cons, hfa, List.find?_cons, hak, ih]
    · have hfa : (!decide (a.1 = k2)) = true := by simp [ha]
      by_cases hak : a.1 = k
      · have hk : (decide (a.1 = k)) = true := decide_eq_true hak
        simp [List.filter_cons, hfa, List.find?_cons, hk]
      · have hk : (decide (a.1 = k)) = false := decide_eq_false hak
        simp [List.filter_cons, hfa, List.find?_cons, hk, ih]

theorem mget_mset_other {κ α : Type} [DecidableEq κ] (m : List (κ × α)) (k2 k : κ)
    (v : α) (h : k2 ≠ k) : mget (mset m k2 v) k = mget m k := by
  have hd : (decide (k2 = k)) = false := decide_eq_false h
  simp [mget, mset, List.find?_cons, hd, find?_filter_other k k2 h]

/-- A value stored in the free-form `session.state` dictionary. -/
inductive StateVal where
  | vBool (b : Bool)
  | vStr (s : String)
deriving DecidableEq, Repr

/-- The state dictionary of a session. -/
abbrev StateMap := List (String × StateVal)

/-- Python truthiness of a state value (`if session.state.get(k, False):`). -/
def truthy : StateVal → Bool
  | .vBool b => b
  | .vStr s => !(s == "")

/-- Condition form of `session.state.get(k, False)`. -/
def stateTruthy (m : StateMap) (k : String) : Bool :=
  match mget m k with
  | some v => truthy v
  | none => false

/-- String form of `session.state.get(k, default)` as interpolated into an
f-string. -/
def stateStr (m : StateMap) (k : String) (default : String) : String :=
  match mget m k with
  | some (.vStr s) => s
  | some (.vBool b) => if b then "True" else "False"
  | none => default

/-- A session of the in-memory session service. -/
structure Session where
  app_name : String
  user_id : String
  id : String
  state : StateMap
deriving DecidableEq, Repr

/-- Key of a session in the service. -/
abbrev SessionKey := String × String × String

/-- The in-memory session service, keyed by (app, user, session). A session
object obtained from the service is a shared mutable reference in Python;
mutation is modelled by writing the updated session back under its key. -/
abbrev SessionStore := List (SessionKey × Session)

/-- The application name constant. -/
def APP_NAME : String := "pregnancy_companion"

/-- State key constants from the source. -/
def STATE_PAUSED : String := "consultation_paused"

def STATE_PAUSE_REASON : String := "pause_reason"

def STATE_PAUSE_TIMESTAMP : String := "pause_timestamp"

def STATE_LAST_TOPIC : String := "last_discussed_topic"

/-- Model of `session_service.get_session`. -/
def get_session (store : SessionStore) (app user sid : String) : Option Session :=
  mget store (app, user, sid)

/-- Model of `session_service.create_session`: a fresh session with empty
state under the given key. -/
def create_session (store : SessionStore) (app user sid : String) : SessionStore :=
  mset store (app, user, sid) ⟨app, user, sid, []⟩

/-- Result dictionary of `pause_consultation`. -/
inductive PauseResult where
  | success (message session_id : String) (can_resume : Bool)
  | error (error_message : String)
deriving DecidableEq, Repr

/-- Model of `pause_consultation`: on an existing session, set the pause
flag and store reason, pause timestamp (`nowIso`) and last topic in the
session state; otherwise the not-found error. -/
def pause_consultation (store : SessionStore)
    (session_id user_id reason last_topic nowIso : String) :
    SessionStore × PauseResult :=
  match get_session store APP_NAME user_id session_id with
  | some session =>
    let st1 := mset session.state STATE_PAUSED (.vBool true)
    let st2 := mset st1 STATE_PAUSE_REASON (.vStr reason)
    let st3 := mset st2 STATE_PAUSE_TIMESTAMP (.vStr nowIso)
    let st4 := mset st3 STATE_LAST_TOPIC (.vStr last_topic)
    (mset store (APP_NAME, user_id, session_id) { session with state := st4 },
      .success ("Consultation paused. Reason: " ++ reason) session_id true)
  | none => (store, .error "Session not found")

/-- The success dictionary of `resume_consultation`. -/
structure ResumeOk where
  message : String
  session_id : String
  was_paused_reason : String
  pause_duration : String
  last_topic : String
  resume_context : String
deriving DecidableEq, Repr

/-- Result dictionary of `resume_consultation`. -/
inductive ResumeResult where
  | success (r : ResumeOk)
  | error (error_message : String)
deriving DecidableEq, Repr

/-- Model of `resume_consultation`: requires an existing session whose
pause flag is truthy; clears the flag and returns reason, the stored pause
timestamp (under the key `pause_duration`), last topic, and the resume
context string; otherwise the shared error for not-paused-or-not-found. -/
def resume_consultation (store : SessionStore) (session_id user_id : String) :
    SessionStore × ResumeResult :=
  match get_session store APP_NAME user_id session_id with
  | some session =>
    if stateTruthy session.state STATE_PAUSED then
      let pause_reason := stateStr session.state STATE_PAUSE_REASON "unknown"
      let pause_time := stateStr session.state STATE_PAUSE_TIMESTAMP ""
      let last_topic := stateStr session.state STATE_LAST_TOPIC "general consultation"
      let session2 := { session with state := mset session.state STATE_PAUSED (.vBool false) }
      (mset store (APP_NAME, user_id, session_id) session2,
        .success ⟨"Consultation resumed", session_id, pause_reason, pause_time,
          last_topic, "Welcome back! We were discussing: " ++ last_topic⟩)
    else (store, .error "Session not paused or not found")
  | none => (store, .error "Session not paused or not found")

/-- The resume context string of a resume result, when it succeeded. -/
def ResumeResult.context : ResumeResult → Option String
  | .success r => some r.resume_context
  | .error _ => none

/-- Counterexample for C7: two sessions paused on the same topic but with
different pause timestamps (hence different elapsed pause durations)
produce the identical resume context string — the context string is not
built from the elapsed pause duration, only from the last topic. -/
theorem resume_context_ignores_duration_counterexample :
    (resume_consultation
        [((APP_NAME, "u1", "s1"),
          ⟨APP_NAME, "u1", "s1",
            [(STATE_PAUSED, .vBool true), (STATE_PAUSE_REASON, .vStr "patient_busy"),
              (STATE_PAUSE_TIMESTAMP, .vStr "2025-01-01T00:00:00"),
              (STATE_LAST_TOPIC, .vStr "nutrition")]⟩)]
        "s1" "u1").2.context =
      (resume_consultation
        [((APP_NAME, "u1", "s1"),
          ⟨APP_NAME, "u1", "s1",
            [(STATE_PAUSED, .vBool true), (STATE_PAUSE_REASON, .vStr "patient_busy"),
              (STATE_PAUSE_TIMESTAMP, .vStr "2025-06-01T12:00:00"),
              (STATE_LAST_TOPIC, .vStr "nutrition")]⟩)]
        "s1" "u1").2.context ∧
    (resume_consultation
        [((APP_NAME, "u1", "s1"),
          ⟨APP_NAME, "u1", "s1",
            [(STATE_PAUSED, .vBool true), (STATE_PAUSE_REASON, .vStr "patient_busy"),
              (STATE_PAUSE_TIMESTAMP, .vStr "2025-01-01T00:00:00"),
              (STATE_LAST_TOPIC, .vStr "nutrition")]⟩)]
        "s1" "u1").2.context =
      some "Welcome back! We were discussing: nutrition" := by
  constructor
  · decide
  · decide

/-- C7 (amended): pausing an existing session then resuming it succeeds,
leaves the session state with the pause flag cleared, and returns a
resume context string built from the stored last topic (the string
contains the topic supplied at pause time; the stored pause timestamp is
returned in the separate `pause_duration` field, and the elapsed duration
is not part of the context string); resuming a session that is not
currently paused, or that does not exist, returns an error result. -/
theorem pause_resume_roundtrip (store : SessionStore)
    (session_id user_id reason topic nowIso : String) (sess : Session)
    (h : get_session store APP_NAME user_id session_id = some sess) :
    (pause_consultation store session_id user_id reason topic nowIso).2 =
      .success ("Consultation paused. Reason: " ++ reason) session_id true ∧
    (resume_consultation
        (pause_consultation store session_id user_id reason topic nowIso).1
        session_id user_id).2 =
      .success ⟨"Consultation resumed", session_id, reason, nowIso, topic,
        "Welcome back! We were discussing: " ++ topic⟩ ∧
    (∃ s2, get_session (resume_consultation
          (pause_consultation store session_id user_id reason topic nowIso).1
          session_id user_id).1 APP_NAME user_id session_id = some s2 ∧
        mget s2.state STATE_PAUSED = some (.vBool false)) ∧
    (∀ (store2 : SessionStore) (sid2 uid2 : String) (s2 : Session),
      get_session store2 APP_NAME uid2 sid2 = some s2 →
      stateTruthy s2.state STATE_PAUSED = false →
      (resume_consultation store2 sid2 uid2).2 = .error "Session not paused or not found") ∧
    (∀ (store2 : SessionStore) (sid2 uid2 : String),
      get_session store2 APP_NAME uid2 sid2 = none →
      (resume_consultation store2 sid2 uid2).2 = .error "Session not paused or not found") := by
  have hne_tp : STATE_LAST_TOPIC ≠ STATE_PAUSED := by decide
  have hne_sp : STATE_PAUSE_TIMESTAMP ≠ STATE_PAUSED := by decide
  have hne_rp : STATE_PAUSE_REASON ≠ STATE_PAUSED := by decide
  have hne_tr : STATE_LAST_TOPIC ≠ STATE_PAUSE_REASON := by decide
  have hne_sr : STATE_PAUSE_TIMESTAMP ≠ STATE_PAUSE_REASON := by decide
  have hne_ts : STATE_LAST_TOPIC ≠ STATE_PAUSE_TIMESTAMP := by decide
  set m1 := mset sess.state STATE_PAUSED (.vBool true) with hm1
  set m2 := mset m1 STATE_PAUSE_REASON (.vStr reason) with hm2
  set m3 := mset m2 STATE_PAUSE_TIMESTAMP (.vStr nowIso) with hm3
  set m4 := mset m3 STATE_LAST_TOPIC (.vStr topic) with hm4
  have hp1 : (pause_consultation store session_id user_id reason topic nowIso).1 =
      mset store (APP_NAME, user_id, session_id) { sess with state := m4 } := by
    simp only [pause_consultation, h]
  have hp2 : (pause_consultation store session_id user_id reason topic nowIso).2 =
      .success ("Consultation paused. Reason: " ++ reason) session_id true := by
    simp only [pause_consultation, h]
  have hget1 : get_session
      (pause_consultation store session_id user_id reason topic nowIso).1
      APP_NAME user_id session_id = some { sess with state := m4 } := by
    rw [hp1]
    exact mget_mset_same store (APP_NAME, user_id, session_id) { sess with state := m4 }
  have hpz : mget m4 STATE_PAUSED = some (.vBool true) := by
    rw [hm4, mget_mset_other _ _ _ _ hne_tp, hm3, mget_mset_other _ _ _ _ hne_sp,
      hm2, mget_mset_other _ _ _ _ hne_rp, hm1, mget_mset_same]
  have hrz : mget m4 STATE_PAUSE_REASON = some (.vStr reason) := by
    rw [hm4, mget_mset_other _ _ _ _ hne_tr, hm3, mget_mset_other _ _ _ _ hne_sr,
      hm2, mget_mset_same]
  have htz : mget m4 STATE_PAUSE_TIMESTAMP = some (.vStr nowIso) := by
    rw [hm4, mget_mset_other _ _ _ _ hne_ts, hm3, mget_mset_same]
  have hlz : mget m4 STATE_LAST_TOPIC = some (.vStr topic) := by
    rw [hm4, mget_mset_same]
  have hr : resume_consultation
      (pause_consultation store session_id user_id reason topic nowIso).1
      session_id user_id =
      (mset (pause_consultation store session_id user_id reason topic nowIso).1
        (APP_NAME, user_id, session_id)
        { sess with state := mset m4 STATE_PAUSED (.vBool false) },
      .success ⟨"Consultation resumed", session_id, reason, nowIso, topic,
        "Welcome back! We were discussing: " ++ topic⟩) := by
    simp only [resume_consultation, hget1, stateTruthy, stateStr, hpz, hrz, htz, hlz,
      truthy, if_true]
  refine ⟨hp2, by rw [hr], ?_, ?_, ?_⟩
  · refine ⟨{ sess with state := mset m4 STATE_PAUSED (.vBool false) }, ?_, ?_⟩
    · rw [hr]
      exact mget_mset_same _ (APP_NAME, user_id, session_id) _
    · exact mget_mset_same m4 STATE_PAUSED (.vBool false)
  · intro store2 sid2 uid2 s2 hget2 hflag
    simp only [resume_consultation, hget2, hflag]
    simp
  · intro store2 sid2 uid2 hget2
    simp only [resume_consultation, hget2]

/-- Witness for the amended C7: pausing then resuming a concrete session
with topic `"anemia"` returns the concrete resume context string. -/
theorem pause_resume_roundtrip_witness :
    (resume_consultation
        (pause_consultation
          [((APP_NAME, "u9", "s9"), ⟨APP_NAME, "u9", "s9", []⟩)]
          "s9" "u9" "patient_busy" "anemia" "2025-05-01T10:00:00").1
        "s9" "u9").2 =
      .success ⟨"Consultation resumed", "s9", "patient_busy", "2025-05-01T10:00:00",
        "anemia", "Welcome back! We were discussing: anemia"⟩ := by
  exact (pause_resume_roundtrip
    [((APP_NAME, "u9", "s9"), ⟨APP_NAME, "u9", "s9", []⟩)]
    "s9" "u9" "patient_busy" "anemia" "2025-05-01T10:00:00"
    ⟨APP_NAME, "u9", "s9", []⟩ (by decide)).2.1

/-- The synthesized reminder session id
`f"reminder_{user_id}_{now:%Y%m%d_%H%M}"` with the timestamp abstracted
as `stamp`. -/
def mkReminderSessionId (user_id stamp : String) : String :=
  "reminder_" ++ user_id ++ "_" ++ stamp

/-- The wrapped system prompt handed to the agent runtime. -/
def systemReminderPrompt (reminder_message : String) : String :=
  "[SYSTEM REMINDER - Do not ask for confirmation, just deliver the message warmly]\n\n"
    ++ reminder_message

/-- The success dictionary of `resume_session_for_reminder`. -/
structure ReminderDelivery where
  session_id : String
  session_existed : Bool
  reminder_delivered : Bool
  agent_response : String
  user_id : String
deriving DecidableEq, Repr

/-- Result dictionary of `resume_session_for_reminder`. -/
inductive ReminderResult where
  | success (r : ReminderDelivery)
  | error (error_message user_id : String)
deriving DecidableEq, Repr

/-- Model of `resume_session_for_reminder`: resolve the target session id
(the caller's, or the synthesized reminder id), record whether the session
pre-existed, create it when missing and `create_if_missing` is set, mark
`system_initiated` and `last_reminder_time` in its state, and hand the
wrapped prompt to the external agent runtime (`run_agent_interaction`,
abstracted as the `runtime` parameter since the conversational runtime is
an external collaborator); a raised exception anywhere in the body is
caught and returned as the structured error result. -/
def resume_session_for_reminder (store : SessionStore)
    (runtime : String → String → String → Except String String)
    (user_id reminder_message : String) (session_id : Option String)
    (create_if_missing : Bool) (stamp nowIso : String) :
    SessionStore × ReminderResult :=
  let target :=
    match session_id with
    | some sid => sid
    | none => mkReminderSessionId user_id stamp
  let session0 := get_session store APP_NAME user_id target
  let session_existed := session0.isSome
  let stage :=
    match session0 with
    | some s => (store, some s)
    | none =>
      if create_if_missing then
        let store1 := create_session store APP_NAME user_id target
        (store1, get_session store1 APP_NAME user_id target)
      else (store, none)
  match stage.2 with
  | none => (stage.1, .error "Could not create or find session" user_id)
  | some session =>
    let st1 := mset session.state "system_initiated" (.vBool true)
    let st2 := mset st1 "last_reminder_time" (.vStr nowIso)
    let store2 := mset stage.1 (APP_NAME, user_id, target) { session with state := st2 }
    match runtime (systemReminderPrompt reminder_message) user_id target with
    | .ok response =>
      (store2, .success ⟨target, session_existed, true, response, user_id⟩)
    | .error e => (store2, .error e user_id)

/-- C8: for a user with no session under the synthesized reminder id,
`resume_session_for_reminder(user, msg, create_if_missing=true)` creates
a fresh session; when the runtime call returns a reply, the result is a
success with `session_existed = false` and `reminder_delivered = true`;
when the runtime raises, the exception is caught and returned as the
structured error result instead of propagating. -/
theorem reminder_creates_session (store : SessionStore)
    (runtime : String → String → String → Except String String)
    (user msg stamp nowIso : String)
    (h : get_session store APP_NAME user (mkReminderSessionId user stamp) = none) :
    (∀ reply,
      runtime (systemReminderPrompt msg) user (mkReminderSessionId user stamp) = .ok reply →
      (resume_session_for_reminder store runtime user msg none true stamp nowIso).2 =
        .success ⟨mkReminderSessionId user stamp, false, true, reply, user⟩) ∧
    (∀ e,
      runtime (systemReminderPrompt msg) user (mkReminderSessionId user stamp) = .error e →
      (resume_session_for_reminder store runtime user msg none true stamp nowIso).2 =
        .error e user) := by
  have hcreate : get_session (create_session store APP_NAME user
      (mkReminderSessionId user stamp)) APP_NAME user (mkReminderSessionId user stamp) =
      some ⟨APP_NAME, user, mkReminderSessionId user stamp, []⟩ :=
    mget_mset_same store _ _
  constructor
  · intro reply hrt
    simp only [resume_session_for_reminder, h, hcreate, Option.isSome, if_true, hrt]
  · intro e hrt
    simp only [resume_session_for_reminder, h, hcreate, Option.isSome, if_true, hrt]

/-- Witness for C8: an empty store, a runtime that replies `"Hi"`. -/
theorem reminder_creates_session_witness :
    (resume_session_for_reminder [] (fun _ _ _ => .ok "Hi") "u7" "visit soon"
        none true "20250101_0800" "2025-01-01T08:00:00").2 =
      .success ⟨"reminder_u7_20250101_0800", false, true, "Hi", "u7"⟩ := by
  exact (reminder_creates_session [] (fun _ _ _ => .ok "Hi") "u7" "visit soon"
    "20250101_0800" "2025-01-01T08:00:00" rfl).1 "Hi" rfl

/-- Serialized session blob in the sessions table. -/
abbrev Blob := String

/-- State of `DatabaseMemoryService`: the parent `InMemoryMemoryService`
storage, the local `_session_cache` and the sessions table of the SQLite
database. -/
structure MemoryService where
  memory : List Session
  session_cache : List (SessionKey × Session)
  db : List (SessionKey × Blob)
deriving DecidableEq, Repr

/-- Cache/database key of a session. -/
def sessionKey (s : Session) : SessionKey := (s.app_name, s.user_id, s.id)

/-- Model of `_persist_session`: `pickle.dumps` followed by the
`INSERT OR REPLACE` and commit, abstracted as the fallible `step`; a
raised exception (serialization or I/O error) is logged and the
transaction rolled back, leaving the table unchanged. -/
def _persist_session (db : List (SessionKey × Blob))
    (step : Session → Except String Blob) (s : Session) : List (SessionKey × Blob) :=
  match step s with
  | .ok blob => mset db (sessionKey s) blob
  | .error _ => db

/-- Model of `DatabaseMemoryService.add_session_to_memory`: first the
parent in-memory storage, then the local cache, then persistence to the
database. -/
def add_session_to_memory (svc : MemoryService)
    (step : Session → Except String Blob) (s : Session) : MemoryService :=
  { memory := svc.memory ++ [s],
    session_cache := mset svc.session_cache (sessionKey s) s,
    db := _persist_session svc.db step s }

/-- C9: `add_session_to_memory` is write-through — the cache always holds
the attempted write, and on success the database holds the serialized
blob; when persisting raises (serialization or I/O error) the database
write is rolled back (the table is unchanged) while the cache still
contains the attempted write. -/
theorem add_session_write_through (svc : MemoryService)
    (step : Session → Except String Blob) (s : Session) :
    mget (add_session_to_memory svc step s).session_cache (sessionKey s) = some s ∧
    (∀ b, step s = .ok b →
      mget (add_session_to_memory svc step s).db (sessionKey s) = some b) ∧
    (∀ e, step s = .error e → (add_session_to_memory svc step s).db = svc.db) := by
  refine ⟨mget_mset_same svc.session_cache (sessionKey s) s, ?_, ?_⟩
  · intro b hb
    simp only [add_session_to_memory, _persist_session, hb]
    exact mget_mset_same svc.db (sessionKey s) b
  · intro e he
    simp only [add_session_to_memory, _persist_session, he]

/-- Witness for C9: a failing pickle step on an empty service keeps the
cache write and leaves the (empty) table unchanged. -/
theorem add_session_write_through_witness :
    mget (add_session_to_memory ⟨[], [], []⟩ (fun _ => .error "PicklingError")
        ⟨APP_NAME, "u", "s", []⟩).session_cache
      (sessionKey ⟨APP_NAME, "u", "s", []⟩) = some ⟨APP_NAME, "u", "s", []⟩ ∧
    (add_session_to_memory ⟨[], [], []⟩ (fun _ => .error "PicklingError")
        ⟨APP_NAME, "u", "s", []⟩).db = [] := by
  obtain ⟨h1, h2, h3⟩ := add_session_write_through ⟨[], [], []⟩
    (fun _ => .error "PicklingError") ⟨APP_NAME, "u", "s", []⟩
  exact ⟨h1, h3 "PicklingError" rfl⟩

/-- C5: for every LMP string that does not parse as a YYYY-MM-DD calendar
date, `calculate_anc_schedule` returns the error result with the fixed
error message — no visit list, no `next_visit`, no guessed date — instead
of raising past the caller (the `ValueError` is caught inside the
function). -/
theorem invalid_lmp_returns_error (s : String) (now : Int)
    (h : parseDate s = none) :
    calculate_anc_schedule s now = .error invalidDateMsg ∧
    (calculate_anc_schedule s now).schedule = [] ∧
    (calculate_anc_schedule s now).nextVisit = none ∧
    (calculate_anc_schedule s now).isSuccess = false := by
  simp [calculate_anc_schedule, h, CalcResult.schedule, CalcResult.nextVisit,
    CalcResult.isSuccess]

/-- Witness for C5 at the wrong-format string `"01-03-2025"`. -/
theorem invalid_lmp_returns_error_witness :
    calculate_anc_schedule "01-03-2025" 1752883200 = .error invalidDateMsg ∧
    (calculate_anc_schedule "01-03-2025" 1752883200).schedule = [] := by
  obtain ⟨h1, h2, h3, h4⟩ := invalid_lmp_returns_error "01-03-2025" 1752883200 (by decide)
  exact ⟨h1, h2⟩

example : parseDate "2025-03-01" = some ⟨2025, 3, 1⟩ := by decide

example : parseDate "01-03-2025" = none := by decide

example : daysFromCivil ⟨1970, 1, 1⟩ = 0 := by decide

example : daysFromCivil ⟨2025, 3, 1⟩ = 20148 := by decide
